import Mathlib

/-!
Verification development for the ffmpeg-api service (src/app.py).

The Python service is orchestration glue around an external `ffmpeg`
binary, an HTTP fetch library and a (stubbed) Drive upload.  We embed it
shallowly:

* external effects (HTTP fetches succeeding, the external tool exiting 0,
  the unique name produced by `tempfile.mkdtemp`, the uuid fragment used
  for default output names) are supplied by a `World` record;
* the filesystem is the list of paths that currently exist, and the model
  additionally logs every external-tool invocation (`trace`) and every
  text file written with known content (`written`) inside a `Sys` record;
* each Python function becomes a Lean function threading `Sys` and
  returning `Except JobError`, mirroring Python exceptions.

Machine reals (the `audio_gain` float) are modelled as `ℚ`: the only
operations performed on them (`float()` conversion, `min`, `max`,
comparison with 0.0 and 5.0) are exact on every value the claims mention.
-/

namespace App

/-- A path as used by `os.path.join(tmpdir, name)` in src/app.py. -/
def pjoin (dir name : String) : String := dir ++ "/" ++ name

/-- `p` lies inside directory `dir` (it is `dir` itself or a path that
starts with it); `shutil.rmtree(dir)` deletes exactly these paths. -/
def underDir (dir p : String) : Bool := dir.toList.isPrefixOf p.toList

/-- `os.path.basename`: the component after the last slash. -/
def basename (p : String) : String :=
  String.mk ((p.toList.reverse.takeWhile (fun c => c != '/')).reverse)

/-- One entry of the request's `clips` array (src/app.py accepts either a
`source_url` or a `url` key, plus optional `ss`/`to` trim offsets). -/
structure Clip where
  source_url : Option String := none
  url : Option String := none
  ss : Option String := none
  toOff : Option String := none
deriving DecidableEq, Repr

/-- Python truthiness for an optional string: `None` and `""` are falsy. -/
def truthy : Option String → Option String
  | none => none
  | some s => if s = "" then none else some s

/-- `clip.get("source_url") or clip.get("url")` from src/app.py line 119
(Python `or` skips falsy values, so an empty `source_url` falls through). -/
def clipUrl (c : Clip) : Option String :=
  match truthy c.source_url with
  | some u => some u
  | none => truthy c.url

/-- A JSON value that may sit in the `audio_gain` field. -/
inductive PyVal where
  | num (q : ℚ)
  | str (s : String)
  | boolean (b : Bool)
  | null
  | arr
deriving DecidableEq, Repr

/-- Decimal digit test, as `float()` accepts. -/
def isDigitCh (c : Char) : Bool := '0' ≤ c && c ≤ '9'

/-- Value of a digit string. -/
def digitsToNat (l : List Char) : Nat :=
  l.foldl (fun a c => 10 * a + (c.toNat - 48)) 0

/-- Unsigned decimal literal, the common shapes accepted by Python's
`float()`: `"12"`, `"12.5"`, `"12."`, `".5"`.  Anything else is `none`. -/
def parseUnsignedDec (l : List Char) : Option ℚ :=
  match l.splitOn '.' with
  | [ip] =>
    if ip.length > 0 && ip.all isDigitCh then some ((digitsToNat ip : ℚ)) else none
  | [ip, fp] =>
    if (ip.length + fp.length > 0) && ip.all isDigitCh && fp.all isDigitCh then
      some ((digitsToNat ip : ℚ) + (digitsToNat fp : ℚ) / ((10 : ℚ) ^ fp.length))
    else none
  | _ => none

/-- Strip the surrounding spaces `float()` tolerates. -/
def stripSpaces (l : List Char) : List Char :=
  ((l.dropWhile (fun c => c == ' ')).reverse.dropWhile (fun c => c == ' ')).reverse

/-- Python `float(string)`, on the decimal shapes relevant here. -/
def pyFloatOfString (s : String) : Option ℚ :=
  match stripSpaces s.toList with
  | '-' :: rest => (parseUnsignedDec rest).map (fun q => -q)
  | '+' :: rest => parseUnsignedDec rest
  | l => parseUnsignedDec l

/-- Python `float(value)`: numbers pass through, numeric strings are
parsed, booleans become 0/1, everything else raises (= `none`). -/
def pyFloat : PyVal → Option ℚ
  | .num q => some q
  | .str s => pyFloatOfString s
  | .boolean b => some (if b then 1 else 0)
  | .null => none
  | .arr => none

/-- The typed payload of POST /concat_and_upload (src/app.py header
comment); `none` means the key is absent from the JSON object. -/
structure JobData where
  clips : Option (List Clip) := none
  resolution : Option String := none
  fps : Option Int := none
  video_bitrate : Option String := none
  audio_bitrate : Option String := none
  audio_url : Option String := none
  audio_gain : Option PyVal := none
  output_name : Option String := none
  upload : Option Bool := none
  drive_folder_id : Option String := none
deriving Repr

/-- The env-var configuration block of src/app.py lines 49-54, with the
hard-coded fallbacks as defaults. -/
structure Config where
  DEFAULT_RESOLUTION : String := "1080x1920"
  DEFAULT_FPS : Int := 30
  DEFAULT_VIDEO_BR : String := "4M"
  DEFAULT_AUDIO_BR : String := "192k"
  UPLOAD_TO_DRIVE : Bool := false
  DRIVE_FOLDER_ID : String := ""
deriving Repr

/-- The external world: whether ffmpeg is on PATH, which fetches succeed,
which tool invocations exit 0, the fresh directory name `tempfile.mkdtemp`
returns and the uuid fragment used for default output names. -/
structure World where
  ffmpegOnPath : Bool
  fetchOk : String → Bool
  runOk : List String → Bool
  tmpName : String
  uuidHex8 : String

/-- Observable machine state: existing paths, the external-tool
invocations so far (in order), and the text files written with known
content (path, lines). -/
structure Sys where
  fs : List String
  trace : List (List String)
  written : List (String × List String)
deriving DecidableEq, Repr

/-- The exceptions src/app.py raises: `ValueError` for bad payloads,
`RuntimeError` for missing ffmpeg / non-zero tool exits, and the
exception escaping a failed `download` call. -/
inductive JobError where
  | valueError (msg : String)
  | runtimeError (msg : String)
  | downloadError (url : String)
deriving DecidableEq, Repr

/-- `str(e)` as the HTTP layer serializes it. -/
def errStr : JobError → String
  | .valueError m => m
  | .runtimeError m => m
  | .downloadError u => "download error: " ++ u

/-- `run(cmd)` from src/app.py lines 73-78: log the invocation, then fail
with a `RuntimeError` when the external tool exits non-zero. -/
def run (w : World) (cmd : List String) (s : Sys) : Except JobError Unit × Sys :=
  let s1 := { s with trace := s.trace ++ [cmd] }
  if w.runOk cmd then (.ok (), s1)
  else (.error (.runtimeError "FFmpeg/Proc error"), s1)

/-- The externally visible effect of the `download(url, to_path)` call as
the pipeline uses it: on success the destination file exists, on failure
the exception aborts the caller.  (The internal structure of `download`
itself is modelled separately below as `download`, where its defect is
analysed.) -/
def downloadEffect (w : World) (url toPath : String) (s : Sys) :
    Except JobError Unit × Sys :=
  if w.fetchOk url then (.ok (), { s with fs := s.fs ++ [toPath] })
  else (.error (.downloadError url), s)

/-- Modelled from the spec: the remote-fetch collaborator ("Remote fetch:
plain HTTPS GET, streamed") is the `requests` library, whose `Response`
objects expose — among others — `raise_for_status` and `iter_content`
(the streamed chunk iterator).  These attribute names are not in src/. -/
def responseAttrs : List String :=
  ["status_code", "headers", "url", "ok", "content", "text",
   "raise_for_status", "iter_content", "iter_lines", "json", "close",
   "encoding", "cookies", "history"]

/-- The attribute name src/app.py line 86 looks up on the response to
obtain the chunk iterator. -/
def requestedChunkAttr : String := "iterate_content"

/-- What a `download(url, to_path)` call can end in. -/
inductive FetchOutcome where
  | httpStatusError (code : Nat)
  | attrError (name : String)
  | fetched (content : List Nat)
deriving DecidableEq, Repr

/-- `download` from src/app.py lines 80-88, given the HTTP status and the
body chunks the server would serve: `raise_for_status()` raises on 4xx/5xx;
otherwise the code evaluates `r.iterate_content(1024 * 1024)`, which is an
attribute lookup on the response — it streams the chunks only if the
looked-up attribute exists, and raises `AttributeError` otherwise. -/
def download (status : Nat) (chunks : List (List Nat)) : FetchOutcome :=
  if 400 ≤ status then .httpStatusError status
  else if requestedChunkAttr ∈ responseAttrs then .fetched chunks.flatten
  else .attrError requestedChunkAttr

/-- `upload_to_drive` from src/app.py lines 90-101: a pure stub that
ignores the local path and folder and returns fixed fake Drive links. -/
structure DriveRecord where
  id : String
  name : String
  webViewLink : String
  webContentLink : String
deriving DecidableEq, Repr

def upload_to_drive (localPath name folderId : String) : DriveRecord :=
  { id := "fake-id"
    name := name
    webViewLink := "https://drive.google.com/"
    webContentLink := "https://drive.google.com/" }

/-- The `local_videos` entries of src/app.py line 125. -/
structure LocalVideo where
  path : String
  ss : Option String
  toOff : Option String
deriving DecidableEq, Repr

/-- The `-vf` filter string built on src/app.py lines 140-141: the
resolution string is interpolated as-is into `scale=` and `pad=`. -/
def vfArg (resolution : String) : String :=
  "scale=" ++ resolution ++ ":force_original_aspect_ratio=decrease,pad=" ++
    resolution ++ ":(ow-iw)/2:(oh-ih)/2,setsar=1"

/-- The per-clip normalization command of src/app.py lines 130-148. -/
def normCmd (resolution : String) (fps : Int) (vbr : String)
    (c : LocalVideo) (normPath : String) : List String :=
  ["ffmpeg", "-y"]
  ++ (match c.ss with | some s => if s = "" then [] else ["-ss", s] | none => [])
  ++ ["-i", c.path]
  ++ (match c.toOff with | some s => if s = "" then [] else ["-to", s] | none => [])
  ++ ["-vf", vfArg resolution, "-r", toString fps, "-c:v", "libx264",
      "-b:v", vbr, "-pix_fmt", "yuv420p", "-an", normPath]

/-- The download loop of src/app.py lines 117-125 (first half of
`_baixar_videos_normalizar_sem_audio`). -/
def downloadClips (w : World) (tmpdir : String) :
    List Clip → Nat → Sys → Except JobError (List LocalVideo) × Sys
  | [], _, s => (.ok [], s)
  | c :: rest, i, s =>
    match clipUrl c with
    | none =>
      (.error (.valueError ("clip[" ++ toString i ++
        "] sem \x27source_url\x27/\x27url\x27 no payload")), s)
    | some u =>
      match downloadEffect w u (pjoin tmpdir ("in_" ++ toString i ++ ".mp4")) s with
      | (.error e, s1) => (.error e, s1)
      | (.ok _, s1) =>
        match downloadClips w tmpdir rest (i + 1) s1 with
        | (.error e, s2) => (.error e, s2)
        | (.ok vids, s2) =>
          (.ok ({ path := pjoin tmpdir ("in_" ++ toString i ++ ".mp4"),
                  ss := c.ss, toOff := c.toOff } :: vids), s2)

/-- The normalization loop of src/app.py lines 127-152 (second half of
`_baixar_videos_normalizar_sem_audio`). -/
def normalizeClips (w : World) (resolution : String) (fps : Int) (vbr : String)
    (tmpdir : String) :
    List LocalVideo → Nat → Sys → Except JobError (List String) × Sys
  | [], _, s => (.ok [], s)
  | c :: rest, i, s =>
    match run w (normCmd resolution fps vbr c
        (pjoin tmpdir ("norm_" ++ toString i ++ ".mp4"))) s with
    | (.error e, s1) => (.error e, s1)
    | (.ok _, s1) =>
      match normalizeClips w resolution fps vbr tmpdir rest (i + 1)
          { s1 with fs := s1.fs ++ [pjoin tmpdir ("norm_" ++ toString i ++ ".mp4")] } with
      | (.error e, s2) => (.error e, s2)
      | (.ok ps, s2) => (.ok (pjoin tmpdir ("norm_" ++ toString i ++ ".mp4") :: ps), s2)

/-- `_baixar_videos_normalizar_sem_audio` from src/app.py lines 106-152. -/
def _baixar_videos_normalizar_sem_audio (w : World) (clips : List Clip)
    (tmpdir resolution : String) (fps : Int) (vbr : String) (s : Sys) :
    Except JobError (List String) × Sys :=
  match clips with
  | [] => (.error (.valueError "payload sem \x27clips\x27"), s)
  | _ :: _ =>
    match downloadClips w tmpdir clips 0 s with
    | (.error e, s1) => (.error e, s1)
    | (.ok vids, s1) => normalizeClips w resolution fps vbr tmpdir vids 0 s1

/-- The lines written into `inputs.txt` by src/app.py lines 163-165:
one `file '<path>'` line per normalized clip, in order. -/
def manifestLines (normPaths : List String) : List String :=
  normPaths.map (fun p => "file \x27" ++ p ++ "\x27")

/-- The concat-demuxer invocation of src/app.py lines 168-174. -/
def concatCmd (listFile concatOut : String) : List String :=
  ["ffmpeg", "-y", "-f", "concat", "-safe", "0", "-i", listFile,
   "-c", "copy", concatOut]

/-- `output_name if output_name.endswith(".mp4") else output_name + ".mp4"`
(src/app.py line 176); `mp4Suffix` is the `endswith(".mp4")` test. -/
def mp4Suffix (l : List Char) : Bool :=
  match l.reverse with
  | '4' :: 'p' :: 'm' :: '.' :: _ => true
  | _ => false

def normalizeOutputName (outputName : String) : String :=
  if mp4Suffix outputName.toList then outputName else outputName ++ ".mp4"

/-- `_concat_por_demuxer` from src/app.py lines 154-178. -/
def _concat_por_demuxer (w : World) (normPaths : List String)
    (tmpdir outputName : String) (s : Sys) : Except JobError String × Sys :=
  match normPaths with
  | [] => (.error (.valueError "nenhum arquivo normalizado para concatenar"), s)
  | _ :: _ =>
    let listFile := pjoin tmpdir "inputs.txt"
    let s1 := { s with fs := s.fs ++ [listFile],
                       written := s.written ++ [(listFile, manifestLines normPaths)] }
    let concatOut := pjoin tmpdir "concat.mp4"
    match run w (concatCmd listFile concatOut) s1 with
    | (.error e, s2) => (.error e, s2)
    | (.ok _, s2) =>
      let finalOut := pjoin tmpdir (normalizeOutputName outputName)
      (.ok finalOut, { s2 with fs := s2.fs ++ [concatOut, finalOut] })

/-- The audio-mix invocation of src/app.py lines 199-208. -/
def mixCmd (finalVideoPath localAudio abr : String) (g : ℚ)
    (mixedOut : String) : List String :=
  ["ffmpeg", "-y", "-i", finalVideoPath, "-i", localAudio,
   "-map", "0:v:0", "-map", "1:a:0",
   "-c:v", "copy",
   "-c:a", "aac", "-b:a", abr,
   "-filter:a", "volume=" ++ toString g,
   "-shortest", mixedOut]

/-- `_mix_audio_se_houver` from src/app.py lines 180-209. -/
def _mix_audio_se_houver (w : World) (finalVideoPath : String)
    (audioUrl : Option String) (tmpdir abr : String) (g : ℚ) (s : Sys) :
    Except JobError String × Sys :=
  match truthy audioUrl with
  | none => (.ok finalVideoPath, s)
  | some u =>
    match downloadEffect w u (pjoin tmpdir "audio_input") s with
    | (.error e, s1) => (.error e, s1)
    | (.ok _, s1) =>
      match run w (mixCmd finalVideoPath (pjoin tmpdir "audio_input") abr g
          (pjoin tmpdir "mixed.mp4")) s1 with
      | (.error e, s2) => (.error e, s2)
      | (.ok _, s2) => (.ok (pjoin tmpdir "mixed.mp4"),
          { s2 with fs := s2.fs ++ [pjoin tmpdir "mixed.mp4"] })

/-- The raw gain taken on src/app.py lines 236-239: `float(...)` of the
request value, falling back to the 0.2 default when the key is absent or
the conversion raises. -/
def audioGainRaw : Option PyVal → ℚ
  | none => 1 / 5
  | some v => (pyFloat v).getD (1 / 5)

/-- The clamp on src/app.py line 241. -/
def clampGain (g : ℚ) : ℚ := max 0 (min g 5)

/-- The `audio_gain` value the pipeline ends up using. -/
def audioGainOf (v : Option PyVal) : ℚ := clampGain (audioGainRaw v)

/-- The success record returned by `_processar_job` (src/app.py 272-277;
the constant `"ok": True` field is left implicit). -/
structure JobOk where
  output_path : String
  uploaded : Bool
  upload_info : Option DriveRecord
deriving DecidableEq, Repr

/-- The `try:` body of `_processar_job` (src/app.py lines 222-277). -/
def jobBody (cfg : Config) (w : World) (data : JobData) (tmpdir : String)
    (s : Sys) : Except JobError JobOk × Sys :=
  if !w.ffmpegOnPath then
    (.error (.runtimeError "ffmpeg não encontrado no container"), s)
  else
    match data.clips with
    | none => (.error (.valueError "payload sem \x27clips\x27"), s)
    | some [] => (.error (.valueError "payload sem \x27clips\x27"), s)
    | some clips =>
      let resolution := data.resolution.getD cfg.DEFAULT_RESOLUTION
      let fps := data.fps.getD cfg.DEFAULT_FPS
      let vbr := data.video_bitrate.getD cfg.DEFAULT_VIDEO_BR
      let abr := data.audio_bitrate.getD cfg.DEFAULT_AUDIO_BR
      let outputName := data.output_name.getD ("out-" ++ w.uuidHex8 ++ ".mp4")
      let audioGain := audioGainOf data.audio_gain
      let uploadFlag := data.upload.getD cfg.UPLOAD_TO_DRIVE
      let driveFolder := data.drive_folder_id.getD cfg.DRIVE_FOLDER_ID
      match _baixar_videos_normalizar_sem_audio w clips tmpdir resolution fps vbr s with
      | (.error e, s1) => (.error e, s1)
      | (.ok normPaths, s1) =>
        match _concat_por_demuxer w normPaths tmpdir outputName s1 with
        | (.error e, s2) => (.error e, s2)
        | (.ok finalOut, s2) =>
          match _mix_audio_se_houver w finalOut data.audio_url tmpdir abr audioGain s2 with
          | (.error e, s3) => (.error e, s3)
          | (.ok finalWithAudio, s3) =>
            if uploadFlag then
              if driveFolder = "" then
                (.error (.valueError
                  "upload=true mas \x27drive_folder_id\x27 não foi fornecido"), s3)
              else
                (.ok { output_path := finalWithAudio, uploaded := true,
                       upload_info := some (upload_to_drive finalWithAudio
                         (basename finalWithAudio) driveFolder) }, s3)
            else
              (.ok { output_path := finalWithAudio, uploaded := false,
                     upload_info := none }, s3)

/-- `shutil.rmtree(tmpdir, ignore_errors=True)`: every path inside the
scratch directory stops existing. -/
def rmtree (tmpdir : String) (s : Sys) : Sys :=
  { s with fs := s.fs.filter (fun p => !underDir tmpdir p) }

/-- `_processar_job` from src/app.py lines 211-284: `tempfile.mkdtemp`
creates the scratch directory, the body runs inside `try:`, and the
`finally:` block removes the directory whatever the body did. -/
def _processar_job (cfg : Config) (w : World) (data : JobData)
    (fs0 : List String) : Except JobError JobOk × Sys :=
  let out := jobBody cfg w data w.tmpName
    { fs := fs0 ++ [w.tmpName], trace := [], written := [] }
  (out.1, rmtree w.tmpName out.2)

/-- A request body as the route sees it: `invalid` covers both a
`get_json` failure and a non-dict payload (src/app.py lines 302-308). -/
inductive ReqBody where
  | invalid
  | valid (data : JobData)

/-- What the route answers: HTTP status plus the JSON fields the error
path serializes. -/
structure HttpResp where
  status : Nat
  ok : Bool
  error : Option String
deriving DecidableEq, Repr

/-- The synchronous branch of POST /concat_and_upload
(src/app.py lines 297-317). -/
def concat_and_upload_sync (cfg : Config) (w : World) (body : ReqBody)
    (fs0 : List String) : HttpResp :=
  match body with
  | .invalid => { status := 400, ok := false, error := some "payload inválido" }
  | .valid data =>
    match (_processar_job cfg w data fs0).1 with
    | .ok _ => { status := 200, ok := true, error := none }
    | .error e => { status := 500, ok := false, error := some (errStr e) }

/-- The asynchronous branch (src/app.py lines 319-330): the request is
acknowledged with 202 before the job runs, whatever happens later. -/
def concat_and_upload_async : Nat := 202


/-! ## Concrete fixtures used by witnesses and counterexamples -/

/-- An external world in which everything succeeds: ffmpeg installed, every fetch and
every tool invocation succeeds. -/
def wAll : World :=
  { ffmpegOnPath := true, fetchOk := fun _ => true, runOk := fun _ => true,
    tmpName := "/tmp/ffx_a", uuidHex8 := "abcd1234" }

def defaultConfig : Config := {}

def clip1 : Clip := { source_url := some "https://example.com/a.mp4" }

def clip2 : Clip :=
  { url := some "https://example.com/b.mp4", ss := some "0", toOff := some "5" }

def dataOne : JobData := { clips := some [clip1] }

def dataTwo : JobData := { clips := some [clip1, clip2] }

def noClipsData : JobData := {}

def dataBadRes : JobData :=
  { clips := some [clip1], resolution := some "not-a-resolution" }

def badResVid : LocalVideo :=
  { path := "/tmp/ffx_a/in_0.mp4", ss := none, toOff := none }

def dataUp : JobData :=
  { clips := some [clip1], output_name := some "final", upload := some true,
    drive_folder_id := some "folder123" }

/-- The `local_videos` list the download loop builds for `clips`,
numbering from `i` (src/app.py line 125). -/
def vidsFor (tmp : String) : List Clip → Nat → List LocalVideo
  | [], _ => []
  | c :: rest, i =>
    { path := pjoin tmp ("in_" ++ toString i ++ ".mp4"),
      ss := c.ss, toOff := c.toOff } :: vidsFor tmp rest (i + 1)

/-- The normalized-clip paths produced for `n` clips numbered from `i`
(src/app.py line 129). -/
def normPathsFor (tmp : String) : Nat → Nat → List String
  | 0, _ => []
  | n + 1, i =>
    pjoin tmp ("norm_" ++ toString i ++ ".mp4") :: normPathsFor tmp n (i + 1)

/-! ## Helper lemmas -/

/-- Appending ".mp4" always produces a name `endswith(".mp4")` accepts. -/
theorem mp4Suffix_append (s : String) : mp4Suffix (s ++ ".mp4").toList = true := by
  have h : (s ++ ".mp4").toList = s.toList ++ ['.', 'm', 'p', '4'] :=
    String.data_append s ".mp4"
  rw [mp4Suffix, h, List.reverse_append]
  rfl

/-! ## Claims -/

/-- C1: for every configuration, external world, payload and initial
filesystem — hence on success as well as on failure at the tool check,
validation, download, normalize, concat, overlay or upload stage — no
path inside the scratch directory created by `_processar_job` still
exists once the job has finished. -/
theorem C1_no_scratch_dir_survives (cfg : Config) (w : World) (data : JobData)
    (fs0 : List String) (p : String) (h : underDir w.tmpName p = true) :
    p ∉ ((_processar_job cfg w data fs0).2).fs := by
  intro hmem
  simp only [_processar_job, rmtree, List.mem_filter] at hmem
  rw [h] at hmem
  simp at hmem

theorem C1_no_scratch_dir_survives_witness :
    underDir wAll.tmpName "/tmp/ffx_a" = true
    ∧ "/tmp/ffx_a" ∉ ((_processar_job defaultConfig wAll dataOne []).2).fs :=
  ⟨by decide, C1_no_scratch_dir_survives defaultConfig wAll dataOne []
    "/tmp/ffx_a" (by decide)⟩

/-- C2: the target resolution is NOT parsed into two integers.  The raw
resolution string is interpolated verbatim into the scale/pad filter;
with the default "1080x1920" the filter reads `scale=1080x1920:...`, and
an unparseable resolution such as "not-a-resolution" raises no
ValidationError — the job runs to completion and the raw string is passed
to the external tool inside the executed normalize command. -/
theorem C2_resolution_embedded_raw :
    vfArg "1080x1920" =
      "scale=1080x1920:force_original_aspect_ratio=decrease,pad=1080x1920:(ow-iw)/2:(oh-ih)/2,setsar=1"
    ∧ (_processar_job defaultConfig wAll dataBadRes []).1 =
        .ok { output_path := "/tmp/ffx_a/out-abcd1234.mp4", uploaded := false,
              upload_info := none }
    ∧ normCmd "not-a-resolution" 30 "4M" badResVid "/tmp/ffx_a/norm_0.mp4"
        ∈ ((_processar_job defaultConfig wAll dataBadRes []).2).trace
    ∧ vfArg "not-a-resolution"
        ∈ normCmd "not-a-resolution" 30 "4M" badResVid "/tmp/ffx_a/norm_0.mp4" := by
  refine ⟨rfl, rfl, by decide, by decide⟩

/-- C3: the fetch never streams anything.  For a 2xx (or any non-4xx/5xx)
response the chunk-iterator attribute the code asks for
("iterate_content") does not exist on the response object — the real
attribute is "iter_content" — so the call ends in an AttributeError
instead of writing the body; only the non-2xx branch (`raise_for_status`)
behaves as the claim says. -/
theorem C3_download_never_streams :
    download 200 [[1, 2], [3]] = .attrError "iterate_content"
    ∧ download 301 [] = .attrError "iterate_content"
    ∧ download 404 [[1]] = .httpStatusError 404
    ∧ download 500 [] = .httpStatusError 500
    ∧ "iter_content" ∈ responseAttrs
    ∧ requestedChunkAttr ∉ responseAttrs := by
  decide

/-- C6: the audio gain actually used by the pipeline is the request value
clamped to [0, 5]: 7 becomes 5, -1 becomes 0, and for every request value
the result lies in [0, 5]. -/
theorem C6_audio_gain_clamped :
    audioGainOf (some (.num 7)) = 5
    ∧ audioGainOf (some (.num (-1))) = 0
    ∧ (∀ v : Option PyVal, 0 ≤ audioGainOf v ∧ audioGainOf v ≤ 5)
    ∧ (∀ q : ℚ, audioGainOf (some (.num q)) = max 0 (min q 5)) := by
  refine ⟨?_, ?_, ?_, fun q => rfl⟩
  · norm_num [audioGainOf, audioGainRaw, pyFloat, clampGain, min_def, max_def]
  · norm_num [audioGainOf, audioGainRaw, pyFloat, clampGain, min_def, max_def]
  · intro v
    unfold audioGainOf clampGain
    exact ⟨le_max_left _ _, max_le (by norm_num) (min_le_right _ _)⟩

/-- A name that already ends in ".mp4" is accepted, so normalization
keeps it. -/
theorem normalizeOutputName_of_endsWith (t : String)
    (h : mp4Suffix t.toList = true) : normalizeOutputName t = t := by
  unfold normalizeOutputName
  rw [if_pos h]

/-- Every normalized output name ends in ".mp4". -/
theorem normalizeOutputName_endsWith (s : String) :
    mp4Suffix (normalizeOutputName s).toList = true := by
  unfold normalizeOutputName
  by_cases h : mp4Suffix s.toList = true
  · rw [if_pos h]
    exact h
  · rw [if_neg h]
    exact mp4Suffix_append s

/-- C7: output-name normalization is idempotent with respect to the
".mp4" suffix — "final" and "final.mp4" normalize to the same name, every
normalized name ends in ".mp4", and normalizing twice equals normalizing
once. -/
theorem C7_output_name_idempotent :
    normalizeOutputName "final" = normalizeOutputName "final.mp4"
    ∧ normalizeOutputName "final" = "final.mp4"
    ∧ (∀ s : String, mp4Suffix (normalizeOutputName s).toList = true)
    ∧ (∀ s : String, normalizeOutputName (normalizeOutputName s) = normalizeOutputName s) := by
  exact ⟨by decide, by decide, normalizeOutputName_endsWith,
    fun s => normalizeOutputName_of_endsWith _ (normalizeOutputName_endsWith s)⟩

/-- C8 counterexample: a syntactically valid JSON object that merely
lacks `clips` — a validation/input problem in the claim's taxonomy — is
answered with status 500, not with a 4xx status, and the body carries
only the raw exception text, with no stage tag. -/
theorem C8_validation_error_gets_500 :
    (concat_and_upload_sync defaultConfig wAll (.valid noClipsData) []).status = 500
    ∧ ¬(400 ≤ (concat_and_upload_sync defaultConfig wAll (.valid noClipsData) []).status
        ∧ (concat_and_upload_sync defaultConfig wAll (.valid noClipsData) []).status < 500)
    ∧ (concat_and_upload_sync defaultConfig wAll (.valid noClipsData) []).error
        = some "payload sem \x27clips\x27" := by
  decide

/-- C8 (amended): the HTTP boundary distinguishes only malformed JSON
(400) from everything else: in sync mode every job failure — validation
problems and tool/infrastructure problems alike — yields 500 with the
bare exception text (no stage tag, no truncation), success yields 200,
and the async branch acknowledges with 202 before the job runs. -/
theorem C8_error_mapping (cfg : Config) (w : World) (fs0 : List String)
    (data : JobData) :
    concat_and_upload_sync cfg w .invalid fs0 =
      { status := 400, ok := false, error := some "payload inválido" }
    ∧ (∀ e, (_processar_job cfg w data fs0).1 = .error e →
        concat_and_upload_sync cfg w (.valid data) fs0 =
          { status := 500, ok := false, error := some (errStr e) })
    ∧ (∀ r, (_processar_job cfg w data fs0).1 = .ok r →
        concat_and_upload_sync cfg w (.valid data) fs0 =
          { status := 200, ok := true, error := none })
    ∧ concat_and_upload_async = 202 := by
  refine ⟨rfl, ?_, ?_, rfl⟩
  · intro e he
    simp [concat_and_upload_sync, he]
  · intro r hr
    simp [concat_and_upload_sync, hr]

theorem C8_error_mapping_witness :
    concat_and_upload_sync defaultConfig wAll (.valid noClipsData) [] =
      { status := 500, ok := false, error := some "payload sem \x27clips\x27" } :=
  (C8_error_mapping defaultConfig wAll [] noClipsData).2.1
    (.valueError "payload sem \x27clips\x27") rfl

/-- C5: the overlay runs iff a (truthy) background-audio URL is present.
With no URL — or the falsy empty string — the concatenated silent video
is returned unchanged and nothing is fetched or invoked; with a URL
present, the audio is fetched into the scratch directory and exactly the
mix command is invoked: explicit `0:v:0`/`1:a:0` stream selection, video
stream copied, audio re-encoded at the target bitrate, a volume gain
filter, and `-shortest` truncation semantics. -/
theorem C5_overlay_iff_audio_url (w : World) (path tmp abr : String) (g : ℚ)
    (s : Sys) :
    _mix_audio_se_houver w path none tmp abr g s = (.ok path, s)
    ∧ _mix_audio_se_houver w path (some "") tmp abr g s = (.ok path, s)
    ∧ (∀ u, u ≠ "" → w.fetchOk u = true →
        w.runOk (mixCmd path (pjoin tmp "audio_input") abr g
          (pjoin tmp "mixed.mp4")) = true →
        _mix_audio_se_houver w path (some u) tmp abr g s =
          (.ok (pjoin tmp "mixed.mp4"),
           { fs := s.fs ++ [pjoin tmp "audio_input", pjoin tmp "mixed.mp4"],
             trace := s.trace ++ [mixCmd path (pjoin tmp "audio_input") abr g
               (pjoin tmp "mixed.mp4")],
             written := s.written }))
    ∧ mixCmd path (pjoin tmp "audio_input") abr g (pjoin tmp "mixed.mp4") =
        ["ffmpeg", "-y", "-i", path, "-i", pjoin tmp "audio_input",
         "-map", "0:v:0", "-map", "1:a:0", "-c:v", "copy", "-c:a", "aac",
         "-b:a", abr, "-filter:a", "volume=" ++ toString g, "-shortest",
         pjoin tmp "mixed.mp4"] := by
  refine ⟨rfl, ?_, ?_, rfl⟩
  · simp [_mix_audio_se_houver, truthy]
  · intro u hu hf hr
    simp [_mix_audio_se_houver, truthy, hu, downloadEffect, hf, run, hr]

theorem C5_overlay_iff_audio_url_witness :
    _mix_audio_se_houver wAll "/v.mp4" (some "https://x/a.mp3") "/tmp/ffx_a"
      "192k" 2 { fs := [], trace := [], written := [] } =
      (.ok "/tmp/ffx_a/mixed.mp4",
       { fs := ["/tmp/ffx_a/audio_input", "/tmp/ffx_a/mixed.mp4"],
         trace := [mixCmd "/v.mp4" "/tmp/ffx_a/audio_input" "192k" 2
           "/tmp/ffx_a/mixed.mp4"],
         written := [] }) := by
  have h := (C5_overlay_iff_audio_url wAll "/v.mp4" "/tmp/ffx_a" "192k" 2
    { fs := [], trace := [], written := [] }).2.2.1 "https://x/a.mp3"
    (by decide) rfl rfl
  simpa using h

/-- C9: an `audio_gain` value that `float()` cannot convert does not fail
the job: the gain silently falls back to the 0.2 default — the used gain
equals the one of a request without the field — and the whole pipeline
outcome (result, filesystem, commands) is unchanged. -/
theorem C9_bad_gain_falls_back (data : JobData) (v : PyVal)
    (hv : pyFloat v = none) :
    audioGainOf (some v) = audioGainOf none
    ∧ audioGainOf (some v) = 1 / 5
    ∧ (∀ cfg w fs0, _processar_job cfg w { data with audio_gain := some v } fs0
        = _processar_job cfg w { data with audio_gain := none } fs0) := by
  have hg : audioGainOf (some v) = audioGainOf none := by
    simp [audioGainOf, audioGainRaw, hv]
  refine ⟨hg, ?_, ?_⟩
  · rw [hg]
    norm_num [audioGainOf, audioGainRaw, clampGain, min_def, max_def]
  · intro cfg w fs0
    unfold _processar_job
    have key : ∀ s, jobBody cfg w { data with audio_gain := some v } w.tmpName s
        = jobBody cfg w { data with audio_gain := none } w.tmpName s := by
      intro s
      unfold jobBody
      rw [show ({ data with audio_gain := some v } : JobData).audio_gain
            = some v from rfl,
          show ({ data with audio_gain := none } : JobData).audio_gain
            = none from rfl, hg]
    rw [key]

theorem C9_bad_gain_falls_back_witness :
    pyFloat (.str "loud") = none
    ∧ audioGainOf (some (.str "loud")) = 1 / 5
    ∧ _processar_job defaultConfig wAll
        { dataOne with audio_gain := some (.str "loud") } []
        = _processar_job defaultConfig wAll
            { dataOne with audio_gain := none } [] :=
  ⟨by decide,
   (C9_bad_gain_falls_back dataOne (.str "loud") (by decide)).2.1,
   (C9_bad_gain_falls_back dataOne (.str "loud") (by decide)).2.2
     defaultConfig wAll []⟩

theorem vidsFor_length (tmp : String) :
    ∀ (clips : List Clip) (i : Nat), (vidsFor tmp clips i).length = clips.length := by
  intro clips
  induction clips with
  | nil => intro i; rfl
  | cons c rest ih =>
    intro i
    simp [vidsFor, ih]

theorem normPathsFor_length (tmp : String) :
    ∀ (n i : Nat), (normPathsFor tmp n i).length = n := by
  intro n
  induction n with
  | zero => intro i; rfl
  | succ m ih =>
    intro i
    simp [normPathsFor, ih]

theorem normPathsFor_getElem? (tmp : String) :
    ∀ (n i j : Nat), j < n → (normPathsFor tmp n i)[j]?
      = some (pjoin tmp ("norm_" ++ toString (i + j) ++ ".mp4")) := by
  intro n
  induction n with
  | zero =>
    intro i j h
    exact absurd h (Nat.not_lt_zero j)
  | succ m ih =>
    intro i j h
    cases j with
    | zero => simp [normPathsFor]
    | succ k =>
      have hk : k < m := Nat.lt_of_succ_lt_succ h
      have e : i + 1 + k = i + (k + 1) := by omega
      simpa [normPathsFor, e] using ih (i + 1) k hk

theorem manifestLines_getElem? (l : List String) (j : Nat) :
    (manifestLines l)[j]? = (l[j]?).map (fun p => "file \x27" ++ p ++ "\x27") := by
  simp [manifestLines]

/-- When every clip has a usable URL and every fetch succeeds, the
download loop returns the expected `local_videos`, in input order. -/
theorem downloadClips_ok (w : World) (tmp : String)
    (hf : ∀ u, w.fetchOk u = true) :
    ∀ (clips : List Clip) (i : Nat) (s : Sys),
      (∀ c ∈ clips, clipUrl c ≠ none) →
      ∃ s2, downloadClips w tmp clips i s = (.ok (vidsFor tmp clips i), s2) := by
  intro clips
  induction clips with
  | nil =>
    intro i s _
    exact ⟨s, rfl⟩
  | cons c rest ih =>
    intro i s hurl
    obtain ⟨u, hu⟩ :=
      Option.ne_none_iff_exists'.mp (hurl c (List.mem_cons_self c rest))
    obtain ⟨s2, h2⟩ := ih (i + 1)
      ⟨s.fs ++ [pjoin tmp ("in_" ++ toString i ++ ".mp4")], s.trace, s.written⟩
      (fun x hx => hurl x (List.mem_cons_of_mem c hx))
    refine ⟨s2, ?_⟩
    simp [downloadClips, hu, downloadEffect, hf u, h2, vidsFor]

/-- When every tool invocation exits 0, the normalize loop returns one
normalized path per input video, in input order. -/
theorem normalizeClips_ok (w : World) (res : String) (fps : Int)
    (vbr tmp : String) (hr : ∀ cmd, w.runOk cmd = true) :
    ∀ (vids : List LocalVideo) (i : Nat) (s : Sys),
      ∃ s2, normalizeClips w res fps vbr tmp vids i s
        = (.ok (normPathsFor tmp vids.length i), s2) := by
  intro vids
  induction vids with
  | nil =>
    intro i s
    exact ⟨s, rfl⟩
  | cons c rest ih =>
    intro i s
    obtain ⟨s2, h2⟩ := ih (i + 1)
      ⟨s.fs ++ [pjoin tmp ("norm_" ++ toString i ++ ".mp4")],
       s.trace ++ [normCmd res fps vbr c (pjoin tmp ("norm_" ++ toString i ++ ".mp4"))],
       s.written⟩
    refine ⟨s2, ?_⟩
    simp [normalizeClips, run, hr, h2, normPathsFor]

/-- C4: with N ≥ 1 clips, reachable URLs and a well-behaved tool, the
normalizer produces exactly one normalized file per clip in input order
(`norm_0.mp4 … norm_{N-1}.mp4`); the concatenator writes `inputs.txt`
with exactly N lines — one quoted local path per line, same order — and
invokes the tool's concat demuxer with `-safe 0` (path safety disabled)
and `-c copy` (stream copy), producing exactly one combined output. -/
theorem C4_manifest_and_concat (w : World) (clips : List Clip)
    (tmp res vbr outName : String) (fps : Int) (s : Sys)
    (hne : clips ≠ [])
    (hurl : ∀ c ∈ clips, clipUrl c ≠ none)
    (hf : ∀ u, w.fetchOk u = true)
    (hr : ∀ cmd, w.runOk cmd = true) :
    (_baixar_videos_normalizar_sem_audio w clips tmp res fps vbr s).1
      = .ok (normPathsFor tmp clips.length 0)
    ∧ (normPathsFor tmp clips.length 0).length = clips.length
    ∧ (∀ j, j < clips.length → (normPathsFor tmp clips.length 0)[j]?
        = some (pjoin tmp ("norm_" ++ toString j ++ ".mp4")))
    ∧ (manifestLines (normPathsFor tmp clips.length 0)).length = clips.length
    ∧ (∀ j, j < clips.length →
        (manifestLines (normPathsFor tmp clips.length 0))[j]?
          = some ("file \x27" ++ pjoin tmp ("norm_" ++ toString j ++ ".mp4") ++ "\x27"))
    ∧ (_concat_por_demuxer w (normPathsFor tmp clips.length 0) tmp outName
        ((_baixar_videos_normalizar_sem_audio w clips tmp res fps vbr s).2)).1
      = .ok (pjoin tmp (normalizeOutputName outName))
    ∧ ((_concat_por_demuxer w (normPathsFor tmp clips.length 0) tmp outName
        ((_baixar_videos_normalizar_sem_audio w clips tmp res fps vbr s).2)).2).written
      = ((_baixar_videos_normalizar_sem_audio w clips tmp res fps vbr s).2).written
        ++ [(pjoin tmp "inputs.txt", manifestLines (normPathsFor tmp clips.length 0))]
    ∧ ((_concat_por_demuxer w (normPathsFor tmp clips.length 0) tmp outName
        ((_baixar_videos_normalizar_sem_audio w clips tmp res fps vbr s).2)).2).trace
      = ((_baixar_videos_normalizar_sem_audio w clips tmp res fps vbr s).2).trace
        ++ [concatCmd (pjoin tmp "inputs.txt") (pjoin tmp "concat.mp4")]
    ∧ concatCmd (pjoin tmp "inputs.txt") (pjoin tmp "concat.mp4")
      = ["ffmpeg", "-y", "-f", "concat", "-safe", "0", "-i",
         pjoin tmp "inputs.txt", "-c", "copy", pjoin tmp "concat.mp4"] := by
  obtain ⟨c, cs, rfl⟩ : ∃ c cs, clips = c :: cs := by
    cases clips with
    | nil => exact absurd rfl hne
    | cons c cs => exact ⟨c, cs, rfl⟩
  obtain ⟨sd, hd⟩ := downloadClips_ok w tmp hf (c :: cs) 0 s hurl
  obtain ⟨sn, hn⟩ := normalizeClips_ok w res fps vbr tmp hr (vidsFor tmp (c :: cs) 0) 0 sd
  rw [vidsFor_length] at hn
  simp only [List.length_cons] at hn
  have hb : _baixar_videos_normalizar_sem_audio w (c :: cs) tmp res fps vbr s
      = (.ok (normPathsFor tmp (cs.length + 1) 0), sn) := by
    simp [_baixar_videos_normalizar_sem_audio, hd, hn]
  have hcon : _concat_por_demuxer w (normPathsFor tmp (cs.length + 1) 0) tmp outName sn
      = (.ok (pjoin tmp (normalizeOutputName outName)),
         { fs := sn.fs ++ [pjoin tmp "inputs.txt", pjoin tmp "concat.mp4",
             pjoin tmp (normalizeOutputName outName)],
           trace := sn.trace ++ [concatCmd (pjoin tmp "inputs.txt") (pjoin tmp "concat.mp4")],
           written := sn.written ++ [(pjoin tmp "inputs.txt",
             manifestLines (normPathsFor tmp (cs.length + 1) 0))] }) := by
    simp [_concat_por_demuxer, normPathsFor, run, hr, manifestLines]
  refine ⟨by simp [hb], normPathsFor_length tmp _ 0, ?_, ?_, ?_, ?_, ?_, ?_, rfl⟩
  · intro j hj
    simpa using normPathsFor_getElem? tmp (c :: cs).length 0 j hj
  · simp [manifestLines, normPathsFor_length]
  · intro j hj
    rw [manifestLines_getElem?, normPathsFor_getElem? tmp (c :: cs).length 0 j hj]
    simp
  · simp [hb, hcon]
  · simp [hb, hcon, manifestLines]
  · simp [hb, hcon]

theorem C4_manifest_and_concat_witness :
    (_baixar_videos_normalizar_sem_audio wAll [clip1, clip2] "/tmp/ffx_a"
      "1080x1920" 30 "4M" { fs := [], trace := [], written := [] }).1
      = .ok (normPathsFor "/tmp/ffx_a" 2 0)
    ∧ (normPathsFor "/tmp/ffx_a" 2 0).length = 2
    ∧ (manifestLines (normPathsFor "/tmp/ffx_a" 2 0))[1]?
      = some "file \x27/tmp/ffx_a/norm_1.mp4\x27"
    ∧ (_concat_por_demuxer wAll (normPathsFor "/tmp/ffx_a" 2 0) "/tmp/ffx_a" "final"
        ((_baixar_videos_normalizar_sem_audio wAll [clip1, clip2] "/tmp/ffx_a"
          "1080x1920" 30 "4M" { fs := [], trace := [], written := [] }).2)).1
      = .ok "/tmp/ffx_a/final.mp4" := by
  have h := C4_manifest_and_concat wAll [clip1, clip2] "/tmp/ffx_a" "1080x1920"
    "4M" "final" 30 { fs := [], trace := [], written := [] }
    (by decide) (by decide) (fun u => rfl) (fun cmd => rfl)
  exact ⟨h.1, h.2.1, h.2.2.2.2.1 1 (by decide), h.2.2.2.2.2.1⟩

/-- The result the fixture upload job produces. -/
def upOkRecord : JobOk :=
  { output_path := "/tmp/ffx_a/final.mp4"
    uploaded := true
    upload_info := some
      { id := "fake-id"
        name := "final.mp4"
        webViewLink := "https://drive.google.com/"
        webContentLink := "https://drive.google.com/" } }

/-- C10: the upload step is a pure stub — for every input triple it
returns the record with id "fake-id", the given name and the two fixed
Drive links, contacting no storage backend and never failing — so every
job that succeeds with upload enabled reports uploaded = true with
exactly this constant metadata, regardless of the artifact. -/
theorem C10_upload_is_stub (cfg : Config) (w : World) (data : JobData)
    (fs0 : List String) (r : JobOk)
    (hu : data.upload = some true)
    (hok : (_processar_job cfg w data fs0).1 = .ok r) :
    (∀ lp nm fid, upload_to_drive lp nm fid =
      { id := "fake-id"
        name := nm
        webViewLink := "https://drive.google.com/"
        webContentLink := "https://drive.google.com/" })
    ∧ r.uploaded = true
    ∧ r.upload_info = some
      { id := "fake-id"
        name := basename r.output_path
        webViewLink := "https://drive.google.com/"
        webContentLink := "https://drive.google.com/" } := by
  refine ⟨fun lp nm fid => rfl, ?_⟩
  have hok' : (jobBody cfg w data w.tmpName
      { fs := fs0 ++ [w.tmpName], trace := [], written := [] }).1 = .ok r := hok
  simp only [jobBody] at hok'
  split at hok'
  · simp at hok'
  · split at hok'
    · simp at hok'
    · simp at hok'
    · split at hok'
      · simp at hok'
      · split at hok'
        · simp at hok'
        · split at hok'
          · simp at hok'
          · split at hok'
            · split at hok'
              · simp at hok'
              · simp only [] at hok'
                have hr : Except.ok _ = Except.ok r := hok'
                rw [Except.ok.injEq] at hr
                subst hr
                exact ⟨rfl, rfl⟩
            · exfalso
              rename_i hflag
              rw [hu] at hflag
              simp at hflag

theorem C10_upload_is_stub_witness :
    (_processar_job defaultConfig wAll dataUp []).1 = .ok upOkRecord
    ∧ upOkRecord.uploaded = true
    ∧ upOkRecord.upload_info = some
      { id := "fake-id"
        name := basename upOkRecord.output_path
        webViewLink := "https://drive.google.com/"
        webContentLink := "https://drive.google.com/" } := by
  have h := C10_upload_is_stub defaultConfig wAll dataUp [] upOkRecord rfl (by rfl)
  exact ⟨by rfl, h.2.1, h.2.2⟩

end App
